import Mathlib

/-!
Verification of the BSV exchange server (`server/src`) against its
natural-language specification.  The TypeScript modules are shallowly
embedded: the balance store (MongoDB `balances` collection) becomes a
total map from identity keys to an optional balance record, external
effects (the WhatsOnChain spent-lookup, the yente sanctions API, wallet
calls) become explicit outcome parameters, and each HTTP handler becomes
a pure function from its request and the relevant outcomes to a result,
an updated state and the list of effectful steps it performed, in the
order the source performs them.
-/

namespace ExchangeServer

/-! ### Balance ledger (`storage.ts` / the MongoDB `BalanceStorage`)

A ledger maps an identity key to `none` (no document for that key) or
`some balance`.  `getBalance` returns `doc?.balance ?? 0`. -/

def Ledger : Type := String → Option Int

def emptyLedger : Ledger := fun _ => none

/-- The function `getBalance`: the stored balance, defaulting to `0` for an absent record. -/
def getBalance (led : Ledger) (identityKey : String) : Int :=
  (led identityKey).getD 0

/-- The function `setBalance`: upsert of the balance document for `identityKey`. -/
def setBalance (led : Ledger) (identityKey : String) (balance : Int) : Ledger :=
  fun k => if k = identityKey then some balance else led k

/-- The function `addBalance`: `findOneAndUpdate` with `$inc: { balance: amount }` and
upsert, returning the new balance. -/
def addBalance (led : Ledger) (identityKey : String) (amount : Int) :
    Ledger × Int :=
  let newBalance := getBalance led identityKey + amount
  (setBalance led identityKey newBalance, newBalance)

/-- Failures of the balance ledger, mirroring the thrown `Error`s of
`BalanceStorage.subtractBalance`. -/
inductive LedgerError where
  | insufficientFunds (has needs : Int)
  | concurrentModification
deriving DecidableEq

/-- The function `subtractBalance`: first read the current balance and throw
`Insufficient balance` when it is below `amount`; otherwise perform the
guarded atomic decrement (`balance: { $gte: amount }`), which in this
sequential model always succeeds. -/
def subtractBalance (led : Ledger) (identityKey : String) (amount : Int) :
    Except LedgerError (Ledger × Int) :=
  let currentBalance := getBalance led identityKey
  if currentBalance < amount then
    .error (.insufficientFunds currentBalance amount)
  else if amount ≤ currentBalance then
    let newBalance := currentBalance - amount
    .ok (setBalance led identityKey newBalance, newBalance)
  else
    .error .concurrentModification

/-! Sequences of ledger operations, for the no-overdraft invariant. -/

inductive LedgerOp where
  | credit (identityKey : String) (amount : Int)
  | debit (identityKey : String) (amount : Int)
deriving DecidableEq

def opAmount : LedgerOp → Int
  | .credit _ a => a
  | .debit _ a => a

/-- Apply one operation: a credit is `addBalance`; a debit is
`subtractBalance`, whose failure leaves the ledger untouched. -/
def applyOp (led : Ledger) : LedgerOp → Ledger
  | .credit k a => (addBalance led k a).1
  | .debit k a =>
    match subtractBalance led k a with
    | .ok (led2, _) => led2
    | .error _ => led

def runOps (led : Ledger) : List LedgerOp → Ledger
  | [] => led
  | op :: rest => runOps (applyOp led op) rest

theorem getBalance_setBalance (led : Ledger) (k k' : String) (b : Int) :
    getBalance (setBalance led k b) k' = if k' = k then b else getBalance led k' := by
  unfold getBalance setBalance
  by_cases h : k' = k <;> simp [h]

theorem applyOp_nonneg (led : Ledger) (op : LedgerOp)
    (hled : ∀ k, 0 ≤ getBalance led k) (hop : 0 < opAmount op) :
    ∀ k, 0 ≤ getBalance (applyOp led op) k := by
  intro k
  cases op with
  | credit k' a =>
    simp only [applyOp, addBalance]
    rw [getBalance_setBalance]
    by_cases h : k = k'
    · simp only [h, if_pos rfl]
      have := hled k'
      simp only [opAmount] at hop
      omega
    · simp [h, hled k]
  | debit k' a =>
    simp only [applyOp, subtractBalance]
    by_cases hlt : getBalance led k' < a
    · simp only [if_pos hlt]
      exact hled k
    · simp only [if_neg hlt, if_pos (by omega : a ≤ getBalance led k')]
      rw [getBalance_setBalance]
      by_cases h : k = k'
      · rw [if_pos h]; omega
      · simp [h, hled k]

theorem runOps_nonneg (ops : List LedgerOp) (led : Ledger)
    (hled : ∀ k, 0 ≤ getBalance led k)
    (hops : ∀ op ∈ ops, 0 < opAmount op) :
    ∀ k, 0 ≤ getBalance (runOps led ops) k := by
  induction ops generalizing led with
  | nil => exact hled
  | cons op rest ih =>
    simp only [runOps]
    exact ih (applyOp led op)
      (applyOp_nonneg led op hled (hops op (by simp)))
      (fun o ho => hops o (by simp [ho]))

/-! ### Swap arithmetic (`POST /swap` handler)

JavaScript numbers are modelled by exact rationals; satoshi counts by
integers.  The handler uses a fixed rate. -/

def BSV_USD_RATE : ℚ := 25000

def SATOSHIS_PER_BSV : ℚ := 100000000

/-- The `bsv-to-usd` leg: `usdAmount = (satoshis / SATOSHIS_PER_BSV) * BSV_USD_RATE`. -/
def swapBsvToUsdAmount (satoshis : ℤ) : ℚ :=
  ((satoshis : ℚ) / SATOSHIS_PER_BSV) * BSV_USD_RATE

/-- The `usd-to-bsv` leg: `satoshis = Math.floor((usdAmount / BSV_USD_RATE) * SATOSHIS_PER_BSV)`. -/
def swapUsdToBsvSatoshis (usdAmount : ℚ) : ℤ :=
  ⌊(usdAmount / BSV_USD_RATE) * SATOSHIS_PER_BSV⌋

/-! ### Signature check at issuance (`trustflow/index.ts`, `verifySignature`)

The demo check ignores the wallet, the signer key and the message; a
missing signature is the empty string. -/

def verifySignature (signerIdentityKey message signature : String) : Bool :=
  if signature = "" || signature.length < 10 then false else true

theorem verifySignature_eq (k m s : String) :
    verifySignature k m s = true ↔ 10 ≤ s.length := by
  unfold verifySignature
  constructor
  · intro htrue
    by_contra hlen
    have hl : s.length < 10 := by omega
    simp [hl] at htrue
  · intro hlen
    have h1 : ¬ s.length < 10 := by omega
    have h2 : ¬ s = "" := by
      intro he
      subst he
      have h0 : ("" : String).length = 0 := rfl
      omega
    simp [h1, h2]

/-! ### KYC certificates (`trustflow/certificate.ts`)

Timestamps are milliseconds since the epoch (the ISO strings stored by
the source are an order-preserving encoding of these). -/

structure KycCertificateFields where
  officialName : String
  validationMethod : String
  serialNumber : String
  sanctionsStatus : String
  issuedAt : Int
  expiresAt : Int
deriving DecidableEq

structure KycCertificate where
  type : String
  subject : String
  certifier : String
  fields : KycCertificateFields
  revocationOutpoint : Option String
deriving DecidableEq

/-- The base64 encoding of `kyc-identity`. -/
def KYC_CERTIFICATE_TYPE : String := "a3ljLWlkZW50aXR5"

/-- Twenty-four hours in milliseconds. -/
def CERTIFICATE_VALIDITY_MS : Int := 24 * 60 * 60 * 1000

/-- The function `createKycCertificate`.  The `randomUUID()` serial number and the
current time `now` are inputs of the model. -/
def createKycCertificate (subjectIdentityKey certifierIdentityKey officialName : String)
    (sanctionsStatus : String) (serialNumber : String) (now : Int) : KycCertificate :=
  { type := KYC_CERTIFICATE_TYPE
    subject := subjectIdentityKey
    certifier := certifierIdentityKey
    fields :=
      { officialName := officialName
        validationMethod := "self_declared_sanctions_check"
        serialNumber := serialNumber
        sanctionsStatus := sanctionsStatus
        issuedAt := now
        expiresAt := now + CERTIFICATE_VALIDITY_MS }
    revocationOutpoint := none }

/-- The check `isCertificateExpired`: `new Date() > expiresAt`. -/
def isCertificateExpired (now : Int) (certificate : KycCertificate) : Bool :=
  certificate.fields.expiresAt < now

/-! ### Revocation check (`checkRevocationStatus`)

The WhatsOnChain `…/out/{vout}/spent` call is an external effect,
modelled by its possible outcomes. -/

inductive SpentLookup where
  /-- the `fetch` threw, or the response was non-OK with a status other
  than 404 (which the source turns into a thrown error caught below) -/
  | fetchFailed
  /-- HTTP 404: the anchor transaction was not found (e.g. unconfirmed) -/
  | notFound
  /-- HTTP 200 with body `null`/`{}` (`none`) or `{ txid }` (`some txid`) -/
  | ok (spentTxid : Option String)
deriving DecidableEq

/-- JavaScript `s.split(sep)`, computed structurally over the
characters. -/
def splitChars (sep : Char) : List Char → List (List Char)
  | [] => [[]]
  | c :: rest =>
    match splitChars sep rest with
    | [] => if c == sep then [[], []] else [[c]]
    | h :: t => if c == sep then [] :: h :: t else (c :: h) :: t

/-- Accumulate a leading run of decimal digits. -/
def digitsAcc : Nat → List Char → Nat
  | acc, [] => acc
  | acc, c :: rest =>
    if c.isDigit then digitsAcc (acc * 10 + (c.toNat - 48)) rest else acc

/-- JavaScript `parseInt(s, 10)` on the nonnegative inputs in scope: the
value of the leading digit run, `none` (NaN) when there is none. -/
def parseIntDec (s : String) : Option Nat :=
  match s.toList with
  | [] => none
  | c :: rest => if c.isDigit then some (digitsAcc 0 (c :: rest)) else none

/-- The parts `outpoint.split(':')`, as strings. -/
def outpointParts (outpoint : String) : List String :=
  (splitChars ':' outpoint.toList).map (fun cs => ⟨cs⟩)

/-- The function `checkRevocationStatus(outpoint)`: parse `txid:vout`, then consult
the spent-lookup; every failure path reports `revoked := false`. -/
def checkRevocationStatus (outpoint : String) (lookup : SpentLookup) :
    Bool × Option String :=
  if outpoint = "" then
    (false, some "No revocation outpoint")
  else
    let txid := (outpointParts outpoint).getD 0 ""
    let voutStr := (outpointParts outpoint).getD 1 ""
    if txid = "" ∨ parseIntDec voutStr = none then
      (false, some "Invalid outpoint format")
    else
      match lookup with
      | .notFound => (false, none)
      | .fetchFailed => (false, some "lookup error")
      | .ok none => (false, none)
      | .ok (some _) => (true, none)

/-- Well-formedness of an outpoint string, exactly the condition under
which `checkRevocationStatus` reaches the lookup. -/
def outpointWellFormed (outpoint : String) : Bool :=
  outpoint ≠ "" &&
    ((outpointParts outpoint).getD 0 "" ≠ "" &&
      parseIntDec ((outpointParts outpoint).getD 1 "") ≠ none)

/-! ### Mock sanctions screening (`trustflow/sanctions-mock.ts`)

`checkSanctions` there is a pure function of the name; the deposit
handler of `index.ts` imports this module. -/

def SANCTIONED_NAMES : List String :=
  ["sanctioned person", "ivan blocked", "kim jong-un", "kim jong un",
   "test sanctioned", "blocked user", "vladimir sanctioned"]

/-- Prefix test over lists of characters. -/
def charsPrefixOf : List Char → List Char → Bool
  | [], _ => true
  | _ :: _, [] => false
  | a :: as, b :: bs => a == b && charsPrefixOf as bs

/-- Whether `needle` occurs as a contiguous run inside `hay`. -/
def charsOccur (needle : List Char) : List Char → Bool
  | [] => charsPrefixOf needle []
  | c :: rest => charsPrefixOf needle (c :: rest) || charsOccur needle rest

/-- JavaScript `hay.includes(needle)`. -/
def strIncludes (hay needle : String) : Bool :=
  charsOccur needle.toList hay.toList

/-- ASCII whitespace, the characters `trim()` removes on the inputs in
scope. -/
def isWsChar (c : Char) : Bool :=
  c == ' ' || c == '\t' || c == '\n' || c == '\r'

def dropLeadingWs : List Char → List Char
  | [] => []
  | c :: rest => if isWsChar c then dropLeadingWs rest else c :: rest

/-- The normalization `toLowerCase().trim()`, computed structurally over the characters
(ASCII case folding, as in the source's inputs). -/
def normalizeName (name : String) : String :=
  ⟨(dropLeadingWs ((dropLeadingWs (name.toList.map Char.toLower)).reverse)).reverse⟩

/-- The function `checkSanctions` of the mock module: lower-case and trim the name,
then look for a list entry contained in the name or containing it.
Returns `(sanctioned, matchedEntity)`. -/
def checkSanctionsMock (name : String) : Bool × Option String :=
  let normalizedName := normalizeName name
  match SANCTIONED_NAMES.find? (fun sanctionedName =>
      strIncludes normalizedName sanctionedName ||
        strIncludes sanctionedName normalizedName) with
  | some matchedEntity => (true, some matchedEntity)
  | none => (false, none)

/-! ### yente sanctions screening (`trustflow/sanctions.ts`)

The `/trustflow/verify` issuance endpoint imports this module, not the
mock.  The HTTP call to the yente `/match/default` endpoint is an
external effect, modelled by its outcome; scores are rationals. -/

def MATCH_SCORE_THRESHOLD : ℚ := 7 / 10

structure YenteTopMatch where
  caption : String
  score : ℚ
deriving DecidableEq

inductive YenteOutcome where
  /-- the `fetch` threw or the response was non-OK: fail open -/
  | apiError
  /-- a response whose first result for the query is `top` -/
  | results (top : Option YenteTopMatch)
deriving DecidableEq

/-- The function `checkSanctions` of the yente module: sanctioned iff a top match
exists with score at least the threshold; any API error fails open. -/
def checkSanctionsYente (outcome : YenteOutcome) : Bool × Option String :=
  match outcome with
  | .apiError => (false, none)
  | .results none => (false, none)
  | .results (some top) =>
    if MATCH_SCORE_THRESHOLD ≤ top.score then (true, some top.caption)
    else (false, none)

/-! ### Deposit handler, certificate-verification phase (`index.ts`,
`POST /deposit`, steps 1–6)

`revLookup` gives the `revoked` result of `checkRevocationStatus` for an
outpoint (the HTTP lookup being external); the sanctions re-check is the
mock module's pure `checkSanctions`. -/

inductive DepositReject where
  | noCertificate
  | subjectMismatch
  | invalidIssuer
  | expired
  | revoked
  | sanctioned
deriving DecidableEq

def certCheck (serverIdentityKey senderIdentityKey : String) (now : Int)
    (revLookup : String → Bool) (certificate? : Option KycCertificate) :
    Option DepositReject :=
  match certificate? with
  | none => some .noCertificate
  | some certificate =>
    if certificate.subject != senderIdentityKey then some .subjectMismatch
    else if certificate.certifier != serverIdentityKey then some .invalidIssuer
    else if isCertificateExpired now certificate then some .expired
    else if (match certificate.revocationOutpoint with
             | some outpoint => revLookup outpoint
             | none => false) then some .revoked
    else if (checkSanctionsMock certificate.fields.officialName).1 then some .sanctioned
    else none

/-- First failing check of an ordered list of (test, rejection) pairs. -/
def firstFailure : List (Bool × DepositReject) → Option DepositReject
  | [] => none
  | (b, r) :: rest => if b then some r else firstFailure rest

/-! ### Deposit handler, payment phase (`index.ts`, `POST /deposit`,
after certificate verification)

`derivedPubKeyHash` is the hash of the BRC29-derived public key,
`outputPkh` the public-key hash found in the first output's locking
script, both as byte lists; `accepted` is what
`wallet.internalizeAction` would report. -/

inductive DepEvent where
  | internalizeCall
  | creditBalance
deriving DecidableEq

inductive DepositResult where
  | pkhMismatch
  | paymentRejected
  | success (newBalance : Int)
deriving DecidableEq

def depositPaymentPhase (derivedPubKeyHash outputPkh : List Nat) (accepted : Bool)
    (led : Ledger) (senderIdentityKey : String) (depositAmount : Int) :
    DepositResult × Ledger × List DepEvent :=
  if derivedPubKeyHash != outputPkh then
    (.pkhMismatch, led, [])
  else if !accepted then
    -- internalizeAction was invoked and reported not accepted
    (.paymentRejected, led, [.internalizeCall])
  else
    let (led2, newBalance) := addBalance led senderIdentityKey depositAmount
    (.success newBalance, led2, [.internalizeCall, .creditBalance])

/-! ### Withdrawal handler (`index.ts`, `POST /withdraw`)

The handler validates the amount, reads the balance, and only when the
balance suffices derives the one-time key, builds the payment with
`createAction`, and finally calls `subtractBalance`. -/

inductive WEvent where
  | balanceRead
  | deriveKey
  | createPayment
  | debit
deriving DecidableEq

inductive WithdrawResult where
  | invalidAmount
  | insufficientBalance (balance requested : Int)
  | success (newBalance : Int)
  | serverError
deriving DecidableEq

def withdrawHandler (led : Ledger) (identityKey : String) (amount : Int) :
    WithdrawResult × Ledger × List WEvent :=
  if amount ≤ 0 then
    (.invalidAmount, led, [])
  else
    let currentBalance := getBalance led identityKey
    if currentBalance < amount then
      (.insufficientBalance currentBalance amount, led, [.balanceRead])
    else
      -- derivationPrefix/Suffix generation, BRC29 getPublicKey, P2PKH
      -- locking script and wallet.createAction all happen here, before
      -- the ledger is touched
      match subtractBalance led identityKey amount with
      | .ok (led2, newBalance) =>
        (.success newBalance, led2, [.balanceRead, .deriveKey, .createPayment, .debit])
      | .error _ =>
        (.serverError, led, [.balanceRead, .deriveKey, .createPayment, .debit])

/-! ### Certificate issuance (`trustflow/index.ts`, `POST /trustflow/verify`)

External effects become parameters: `nowSec` is `Math.floor(Date.now()/1000)`
at the freshness check, `nowMs` the creation time of the certificate,
`yente` the outcome of the sanctions API call, `serialNumber` the
generated UUID, and `anchorOutpoint` the outpoint of the revocation
anchor (`none` when `createRevocationAnchor` threw, in which case the
handler continues with a `null` outpoint). -/

structure KycAuthorizationMessage where
  subject : String
  verifier : String
  verifierName : String
  officialName : String
  timestamp : Int
deriving DecidableEq

structure KycRecord where
  identityKey : String
  certificate : KycCertificate
  sanctioned : Bool
deriving DecidableEq

/-- The function `saveKycRecord`: upsert keyed on `identityKey`. -/
def saveKycRecord (store : List KycRecord) (record : KycRecord) : List KycRecord :=
  record :: store.filter (fun r => r.identityKey != record.identityKey)

inductive VerifyError where
  | missingFields
  | verifierMismatch
  | subjectMismatch
  | staleTimestamp
  | invalidSignature
deriving DecidableEq

inductive VerifyOutcome where
  | error (e : VerifyError)
  | success (certificate : KycCertificate) (sanctioned : Bool)
deriving DecidableEq

/-- The JSON-stringified authorization signed by the user.  The exact
serialization is irrelevant: `verifySignature` never inspects its
message argument (theorem `c9_signature_check_length_only`). -/
def authMessageText (auth : KycAuthorizationMessage) : String :=
  auth.subject ++ auth.verifier ++ auth.verifierName ++ auth.officialName

def trustflowVerify (serverIdentityKey authIdentityKey : String)
    (authorization? : Option KycAuthorizationMessage) (signature : String)
    (nowSec : Int) (yente : YenteOutcome) (serialNumber : String)
    (anchorOutpoint : Option String) (nowMs : Int)
    (store : List KycRecord) : VerifyOutcome × List KycRecord :=
  match authorization? with
  | none => (.error .missingFields, store)
  | some auth =>
    if signature = "" then (.error .missingFields, store)
    -- 1. the authorization must name this exchange as verifier
    else if auth.verifier != serverIdentityKey then (.error .verifierMismatch, store)
    -- 2. the subject must be the authenticated user
    else if auth.subject != authIdentityKey then (.error .subjectMismatch, store)
    -- 3. the timestamp must be within five minutes of now
    else if 5 * 60 < |nowSec - auth.timestamp| then (.error .staleTimestamp, store)
    -- 4. the signature check
    else if !verifySignature auth.subject (authMessageText auth) signature then
      (.error .invalidSignature, store)
    else
      -- 5. sanctions screening via the yente module
      let sanctionsResult := checkSanctionsYente yente
      -- 6. certificate creation (issuance proceeds even on a match)
      let certificate0 := createKycCertificate auth.subject serverIdentityKey
        auth.officialName (if sanctionsResult.1 then "matched" else "clear")
        serialNumber nowMs
      -- 7. revocation anchor; on failure the outpoint stays null
      let certificate := { certificate0 with revocationOutpoint := anchorOutpoint }
      -- 8. store the KYC record
      let record : KycRecord :=
        { identityKey := auth.subject, certificate := certificate
          sanctioned := sanctionsResult.1 }
      (.success certificate sanctionsResult.1, saveKycRecord store record)

/-! ## Claims -/

/-- C9: the signature check performed during certificate issuance accepts
every signature string of length at least 10, regardless of the message
content, the signer's identity key, or the signature bytes; it returns
`false` only for a missing (empty) or shorter-than-10-character
signature. -/
theorem c9_signature_check_length_only (k m s : String) :
    verifySignature k m s = true ↔ 10 ≤ s.length :=
  verifySignature_eq k m s

/-- C6: every certificate produced by issuance satisfies
`expiresAt = issuedAt + 24h`; `isCertificateExpired` holds exactly when
the current time is strictly after `expiresAt`, hence is `false` at the
expiry instant and `true` one second past the 24-hour window. -/
theorem c6_expiry_window (subject certifier name status serial : String) (now : Int) :
    (createKycCertificate subject certifier name status serial now).fields.expiresAt
      = (createKycCertificate subject certifier name status serial now).fields.issuedAt
        + CERTIFICATE_VALIDITY_MS
    ∧ (∀ (t : Int) (c : KycCertificate),
        isCertificateExpired t c = true ↔ c.fields.expiresAt < t)
    ∧ isCertificateExpired
        (createKycCertificate subject certifier name status serial now).fields.expiresAt
        (createKycCertificate subject certifier name status serial now) = false
    ∧ isCertificateExpired (now + CERTIFICATE_VALIDITY_MS + 1000)
        (createKycCertificate subject certifier name status serial now) = true := by
  refine ⟨rfl, ?_, ?_, ?_⟩
  · intro t c
    simp [isCertificateExpired]
  · simp [isCertificateExpired]
  · simp only [isCertificateExpired, createKycCertificate, decide_eq_true_eq]
    omega

/-- C7: converting `N` base units to fiat at rate 25000 and converting the
resulting fiat amount back to base units returns exactly `N` (the
truncation remainder is zero in exact arithmetic); in particular the
round trip of 100000 base units returns 100000. -/
theorem c7_swap_round_trip :
    (∀ N : ℕ, swapUsdToBsvSatoshis (swapBsvToUsdAmount (N : ℤ)) = N)
    ∧ swapUsdToBsvSatoshis (swapBsvToUsdAmount 100000) = 100000 := by
  have main : ∀ N : ℕ, swapUsdToBsvSatoshis (swapBsvToUsdAmount (N : ℤ)) = N := by
    intro N
    unfold swapUsdToBsvSatoshis swapBsvToUsdAmount SATOSHIS_PER_BSV BSV_USD_RATE
    have h : (((N : ℤ) : ℚ)) / 100000000 * 25000 / 25000 * 100000000 = ((N : ℤ) : ℚ) := by
      ring
    rw [h, Int.floor_intCast]
  exact ⟨main, by exact_mod_cast main 100000⟩

/-- C5: `checkRevocationStatus` reports `revoked = true` exactly when the
outpoint is well-formed and the external spent-lookup returned an actual
spending transaction; a not-found lookup and a failed lookup both yield
`revoked = false`, and with a failing lookup the deposit certificate
check behaves exactly as with an unrevoked certificate, so the deposit
proceeds past the revocation check. -/
theorem c5_revocation_fail_open :
    (∀ (outpoint : String) (lookup : SpentLookup),
      ((checkRevocationStatus outpoint lookup).1 = true ↔
        (outpointWellFormed outpoint = true ∧ ∃ t, lookup = .ok (some t))))
    ∧ (∀ outpoint : String,
        (checkRevocationStatus outpoint .notFound).1 = false
        ∧ (checkRevocationStatus outpoint .fetchFailed).1 = false)
    ∧ (∀ (serverIdentityKey senderIdentityKey : String) (now : Int)
        (c : KycCertificate),
        certCheck serverIdentityKey senderIdentityKey now
            (fun outpoint => (checkRevocationStatus outpoint .fetchFailed).1) (some c)
          = certCheck serverIdentityKey senderIdentityKey now
              (fun _ => false) (some c)) := by
  have hfalse : ∀ (outpoint : String) (lookup : SpentLookup),
      (∀ t, lookup ≠ .ok (some t)) → (checkRevocationStatus outpoint lookup).1 = false := by
    intro outpoint lookup hne
    unfold checkRevocationStatus
    by_cases h0 : outpoint = ""
    · simp [h0]
    · rw [if_neg h0]
      by_cases h1 : (outpointParts outpoint).getD 0 "" = ""
          ∨ parseIntDec ((outpointParts outpoint).getD 1 "") = none
      · simp only [if_pos h1]
      · rw [if_neg h1]
        cases lookup with
        | fetchFailed => rfl
        | notFound => rfl
        | ok spent =>
          cases spent with
          | none => rfl
          | some t => exact absurd rfl (hne t)
  refine ⟨?_, ?_, ?_⟩
  · intro outpoint lookup
    constructor
    · intro htrue
      unfold checkRevocationStatus at htrue
      by_cases h0 : outpoint = ""
      · rw [if_pos h0] at htrue; cases htrue
      · rw [if_neg h0] at htrue
        by_cases h1 : (outpointParts outpoint).getD 0 "" = ""
            ∨ parseIntDec ((outpointParts outpoint).getD 1 "") = none
        · rw [if_pos h1] at htrue; cases htrue
        · rw [if_neg h1] at htrue
          push_neg at h1
          have hwf : outpointWellFormed outpoint = true := by
            unfold outpointWellFormed
            simp only [Bool.and_eq_true, decide_eq_true_eq, ne_eq]
            exact ⟨h0, h1.1, h1.2⟩
          refine ⟨hwf, ?_⟩
          cases lookup with
          | fetchFailed => cases htrue
          | notFound => cases htrue
          | ok spent =>
            cases spent with
            | none => cases htrue
            | some t => exact ⟨t, rfl⟩
    · rintro ⟨hwf, t, rfl⟩
      simp only [outpointWellFormed, Bool.and_eq_true, ne_eq,
        decide_eq_true_eq] at hwf
      unfold checkRevocationStatus
      rw [if_neg hwf.1, if_neg (by push_neg; exact ⟨hwf.2.1, hwf.2.2⟩)]
  · intro outpoint
    exact ⟨hfalse outpoint .notFound (fun t h => by cases h),
      hfalse outpoint .fetchFailed (fun t h => by cases h)⟩
  · intro serverIdentityKey senderIdentityKey now c
    cases hro : c.revocationOutpoint with
    | none => simp [certCheck, hro]
    | some op =>
      simp [certCheck, hro, hfalse op .fetchFailed (fun t h => by cases h)]

/-- C2: starting from an absent record (balance zero), no sequence of
positive-amount credits and debits drives any balance negative; a debit
of more than the current balance fails with `InsufficientFunds` and
leaves the ledger unchanged, and otherwise the debit returns the current
balance minus the amount. -/
theorem c2_no_overdraft (ops : List LedgerOp) (led : Ledger)
    (identityKey : String) (amount : Int)
    (hpos : ∀ op ∈ ops, 0 < opAmount op) :
    (∀ k, 0 ≤ getBalance (runOps emptyLedger ops) k)
    ∧ (getBalance led identityKey < amount →
        subtractBalance led identityKey amount
          = .error (.insufficientFunds (getBalance led identityKey) amount)
        ∧ applyOp led (.debit identityKey amount) = led)
    ∧ (amount ≤ getBalance led identityKey →
        subtractBalance led identityKey amount
          = .ok (setBalance led identityKey (getBalance led identityKey - amount),
              getBalance led identityKey - amount)) := by
  refine ⟨?_, ?_, ?_⟩
  · exact runOps_nonneg ops emptyLedger
      (fun k => by simp [getBalance, emptyLedger]) hpos
  · intro hlt
    constructor
    · unfold subtractBalance
      rw [if_pos hlt]
    · simp only [applyOp, subtractBalance]
      rw [if_pos hlt]
  · intro hle
    unfold subtractBalance
    rw [if_neg (by omega : ¬ getBalance led identityKey < amount), if_pos hle]

/-- C2 witness: a concrete credit-then-debit run. -/
theorem c2_no_overdraft_witness :
    (∀ op ∈ ([.credit "a" 5, .debit "a" 3] : List LedgerOp), 0 < opAmount op)
    ∧ ((∀ k, 0 ≤ getBalance (runOps emptyLedger [.credit "a" 5, .debit "a" 3]) k)
      ∧ (getBalance emptyLedger "a" < 3 →
          subtractBalance emptyLedger "a" 3
            = .error (.insufficientFunds (getBalance emptyLedger "a") 3)
          ∧ applyOp emptyLedger (.debit "a" 3) = emptyLedger)
      ∧ (3 ≤ getBalance emptyLedger "a" →
          subtractBalance emptyLedger "a" 3
            = .ok (setBalance emptyLedger "a" (getBalance emptyLedger "a" - 3),
                getBalance emptyLedger "a" - 3))) :=
  ⟨by decide, c2_no_overdraft [.credit "a" 5, .debit "a" 3] emptyLedger "a" 3 (by decide)⟩

/-- C1 counterexample: on a withdrawal of 50 against a balance of 100,
the handler's step trace is balance-read, key-derivation, payment
construction and only then the debit, so payment construction strictly
precedes the debit, contradicting the claim that the ledger is debited
before any key derivation or payment construction. -/
theorem c1_counterexample :
    (withdrawHandler (setBalance emptyLedger "alice" 100) "alice" 50).2.2
      = [.balanceRead, .deriveKey, .createPayment, .debit]
    ∧ List.findIdx (fun e => e == WEvent.createPayment)
          ((withdrawHandler (setBalance emptyLedger "alice" 100) "alice" 50).2.2)
        < List.findIdx (fun e => e == WEvent.debit)
          ((withdrawHandler (setBalance emptyLedger "alice" 100) "alice" 50).2.2) := by
  constructor
  · rfl
  · decide

/-- C1 amended: the withdrawal flow performs a read-only balance check
before any key derivation or payment construction — an insufficient
balance aborts the request with only the balance read performed — and
when the balance suffices the debit is applied after key derivation and
payment construction, yielding the old balance minus the amount. -/
theorem c1_withdraw_check_then_debit (led : Ledger) (identityKey : String)
    (amount : Int) (hamt : 0 < amount) :
    (getBalance led identityKey < amount →
      withdrawHandler led identityKey amount
        = (.insufficientBalance (getBalance led identityKey) amount, led, [.balanceRead]))
    ∧ (amount ≤ getBalance led identityKey →
      withdrawHandler led identityKey amount
        = (.success (getBalance led identityKey - amount),
            setBalance led identityKey (getBalance led identityKey - amount),
            [.balanceRead, .deriveKey, .createPayment, .debit])) := by
  constructor
  · intro hlt
    unfold withdrawHandler
    rw [if_neg (by omega : ¬ amount ≤ 0), if_pos hlt]
  · intro hle
    unfold withdrawHandler
    rw [if_neg (by omega : ¬ amount ≤ 0),
      if_neg (by omega : ¬ getBalance led identityKey < amount)]
    unfold subtractBalance
    rw [if_neg (by omega : ¬ getBalance led identityKey < amount), if_pos hle]

/-- C1 witness: both branches of the amended claim at concrete inputs. -/
theorem c1_withdraw_check_then_debit_witness :
    ((0 : Int) < 150
      ∧ ((getBalance (setBalance emptyLedger "alice" 100) "alice" < 150 →
          withdrawHandler (setBalance emptyLedger "alice" 100) "alice" 150
            = (.insufficientBalance (getBalance (setBalance emptyLedger "alice" 100) "alice") 150,
                setBalance emptyLedger "alice" 100, [.balanceRead]))
        ∧ (150 ≤ getBalance (setBalance emptyLedger "alice" 100) "alice" →
          withdrawHandler (setBalance emptyLedger "alice" 100) "alice" 150
            = (.success (getBalance (setBalance emptyLedger "alice" 100) "alice" - 150),
                setBalance (setBalance emptyLedger "alice" 100) "alice"
                  (getBalance (setBalance emptyLedger "alice" 100) "alice" - 150),
                [.balanceRead, .deriveKey, .createPayment, .debit]))))
    ∧ (withdrawHandler (setBalance emptyLedger "alice" 100) "alice" 150).1
        = .insufficientBalance 100 150 :=
  ⟨⟨by decide,
    c1_withdraw_check_then_debit (setBalance emptyLedger "alice" 100) "alice" 150 (by decide)⟩,
   by decide⟩

/-- C3: in the payment phase of a deposit that passed the certificate
checks, the balance is credited exactly when the derived public-key hash
equals the output's public-key hash byte for byte and internalization
reports accepted; internalization is attempted exactly when the hashes
match; and every balance is unchanged unless both conditions hold, in
which case the sender's balance grows by the deposit amount. -/
theorem c3_deposit_credit_gated (derivedPubKeyHash outputPkh : List Nat)
    (accepted : Bool) (led : Ledger) (senderIdentityKey : String)
    (depositAmount : Int) :
    (DepEvent.creditBalance ∈
        (depositPaymentPhase derivedPubKeyHash outputPkh accepted led
          senderIdentityKey depositAmount).2.2
      ↔ derivedPubKeyHash = outputPkh ∧ accepted = true)
    ∧ (DepEvent.internalizeCall ∈
        (depositPaymentPhase derivedPubKeyHash outputPkh accepted led
          senderIdentityKey depositAmount).2.2
      ↔ derivedPubKeyHash = outputPkh)
    ∧ (∀ k, getBalance
        (depositPaymentPhase derivedPubKeyHash outputPkh accepted led
          senderIdentityKey depositAmount).2.1 k
      = if derivedPubKeyHash = outputPkh ∧ accepted = true ∧ k = senderIdentityKey
        then getBalance led k + depositAmount
        else getBalance led k) := by
  by_cases hm : derivedPubKeyHash = outputPkh
  · cases accepted with
    | false =>
      refine ⟨?_, ?_, ?_⟩
      · simp [depositPaymentPhase, hm]
      · simp [depositPaymentPhase, hm]
      · intro k
        simp [depositPaymentPhase, hm]
    | true =>
      refine ⟨?_, ?_, ?_⟩
      · simp [depositPaymentPhase, hm]
      · simp [depositPaymentPhase, hm]
      · intro k
        by_cases hk : k = senderIdentityKey
        · simp [depositPaymentPhase, hm, hk, addBalance, getBalance_setBalance]
        · simp [depositPaymentPhase, hm, hk, addBalance, getBalance_setBalance]
  · refine ⟨?_, ?_, ?_⟩
    · simp [depositPaymentPhase, hm]
    · simp [depositPaymentPhase, hm]
    · intro k
      simp [depositPaymentPhase, hm]

/-- C4: the deposit handler's certificate verification is exactly the
short-circuiting first-failure of, in order: certificate present,
subject equals the requester, certifier equals the exchange, not
expired, not revoked (consulting the lookup only when an anchor outpoint
is present), and a fresh mock-sanctions screening of the official name;
the check passes exactly when every test passes. -/
theorem c4_cert_check_order (serverIdentityKey senderIdentityKey : String)
    (now : Int) (revLookup : String → Bool) (c : KycCertificate) :
    certCheck serverIdentityKey senderIdentityKey now revLookup none
      = some .noCertificate
    ∧ certCheck serverIdentityKey senderIdentityKey now revLookup (some c)
      = firstFailure
          [(c.subject != senderIdentityKey, .subjectMismatch),
           (c.certifier != serverIdentityKey, .invalidIssuer),
           (isCertificateExpired now c, .expired),
           ((c.revocationOutpoint.map revLookup).getD false, .revoked),
           ((checkSanctionsMock c.fields.officialName).1, .sanctioned)]
    ∧ (certCheck serverIdentityKey senderIdentityKey now revLookup (some c) = none
      ↔ (c.subject = senderIdentityKey ∧ c.certifier = serverIdentityKey
          ∧ isCertificateExpired now c = false
          ∧ (c.revocationOutpoint.map revLookup).getD false = false
          ∧ (checkSanctionsMock c.fields.officialName).1 = false)) := by
  have hmatch : (match c.revocationOutpoint with
      | some outpoint => revLookup outpoint
      | none => false) = (c.revocationOutpoint.map revLookup).getD false := by
    cases c.revocationOutpoint <;> rfl
  refine ⟨rfl, ?_, ?_⟩
  · simp only [certCheck, hmatch, firstFailure]
  · simp only [certCheck, hmatch]
    constructor
    · intro hnone
      by_cases h1 : c.subject = senderIdentityKey
      · by_cases h2 : c.certifier = serverIdentityKey
        · by_cases h3 : isCertificateExpired now c
          · simp [h1, h2, h3] at hnone
          · by_cases h4 : (c.revocationOutpoint.map revLookup).getD false
            · simp [h1, h2, h3, h4] at hnone
            · by_cases h5 : (checkSanctionsMock c.fields.officialName).1
              · simp [h1, h2, h3, h4, h5] at hnone
              · exact ⟨h1, h2, by simp [h3], by simp [h4], by simp [h5]⟩
        · simp [h1, h2] at hnone
      · simp [h1] at hnone
    · rintro ⟨h1, h2, h3, h4, h5⟩
      simp [h1, h2, h3, h4, h5]

/-- C10: an authorization whose timestamp is more than five minutes from
the server's current time (in either direction) is rejected with the
staleness error, with the certificate store unchanged; the result is the
same for every signature content, sanctions outcome, serial number and
anchor outcome, so the rejection happens before the signature check, the
sanctions screening and any certificate creation. -/
theorem c10_stale_timestamp_rejected (serverIdentityKey authIdentityKey : String)
    (auth : KycAuthorizationMessage) (signature : String) (nowSec : Int)
    (yente : YenteOutcome) (serialNumber : String) (anchorOutpoint : Option String)
    (nowMs : Int) (store : List KycRecord)
    (hver : auth.verifier = serverIdentityKey)
    (hsub : auth.subject = authIdentityKey)
    (hsig : signature ≠ "")
    (hstale : 5 * 60 < |nowSec - auth.timestamp|) :
    trustflowVerify serverIdentityKey authIdentityKey (some auth) signature nowSec
        yente serialNumber anchorOutpoint nowMs store
      = (.error .staleTimestamp, store) := by
  simp only [trustflowVerify]
  rw [if_neg hsig,
    if_neg (by simp [hver] : ¬ (auth.verifier != serverIdentityKey) = true),
    if_neg (by simp [hsub] : ¬ (auth.subject != authIdentityKey) = true),
    if_pos hstale]

/-- A concrete authorization message whose timestamp is far from the
check time, for the C10 witness. -/
def staleAuth : KycAuthorizationMessage :=
  { subject := "A"
    verifier := "S"
    verifierName := "BSV Swift Exchange"
    officialName := "John Doe"
    timestamp := 0 }

/-- C10 witness: a concrete stale authorization is rejected and leaves
the store unchanged. -/
theorem c10_stale_timestamp_rejected_witness :
    (staleAuth.verifier = "S"
      ∧ staleAuth.subject = "A"
      ∧ ("validsignature" : String) ≠ ""
      ∧ (5 * 60 : Int) < |(1000 : Int) - staleAuth.timestamp|)
    ∧ trustflowVerify "S" "A" (some staleAuth) "validsignature" 1000
        .apiError "serial-1" none 0 []
      = (.error .staleTimestamp, []) :=
  ⟨⟨rfl, rfl, by decide, by decide⟩,
   c10_stale_timestamp_rejected "S" "A" staleAuth "validsignature" 1000
     .apiError "serial-1" none 0 [] rfl rfl (by decide) (by decide)⟩

/-- A fresh authorization for the C8 counterexample: the declared name
matches the issuance-time sanctions source but not the mock list. -/
def c8Auth : KycAuthorizationMessage :=
  { subject := "A"
    verifier := "S"
    verifierName := "BSV Swift Exchange"
    officialName := "John Doe"
    timestamp := 0 }

/-- An issuance-time sanctions match for the name, above threshold. -/
def c8YenteTop : YenteTopMatch := { caption := "John Doe", score := 95 / 100 }

/-- The certificate that issuance produces for `c8Auth`. -/
def c8Cert : KycCertificate :=
  { createKycCertificate "A" "S" "John Doe" "matched" "serial-1" 0 with
    revocationOutpoint := some "aa:0" }

/-- C8 counterexample: for the name `John Doe`, matched by the
issuance-time (yente) screening but absent from the deposit-time mock
list, issuance succeeds and sets `sanctionsStatus = "matched"`, yet the
deposit certificate check on that unexpired, unrevoked certificate
passes — the deposit is not rejected as sanctioned, because the deposit
handler re-screens the name against the mock list and never reads
`sanctionsStatus`. -/
theorem c8_counterexample :
    (trustflowVerify "S" "A" (some c8Auth) "validsignature" 0
        (.results (some c8YenteTop)) "serial-1" (some "aa:0") 0 []).1
      = .success c8Cert true
    ∧ c8Cert.fields.sanctionsStatus = "matched"
    ∧ isCertificateExpired 1000 c8Cert = false
    ∧ certCheck "S" "A" 1000 (fun _ => false) (some c8Cert) = none := by
  have hy : checkSanctionsYente (.results (some c8YenteTop)) = (true, some "John Doe") := by
    norm_num [checkSanctionsYente, c8YenteTop, MATCH_SCORE_THRESHOLD]
  refine ⟨?_, rfl, by decide, by decide⟩
  simp only [trustflowVerify, c8Auth]
  rw [if_neg (by decide : ¬ ("validsignature" : String) = ""),
    if_neg (by decide : ¬ (("S" : String) != "S") = true),
    if_neg (by decide : ¬ (("A" : String) != "A") = true),
    if_neg (by decide : ¬ (5 * 60 : Int) < |(0 : Int) - 0|)]
  simp only [hy]
  rw [if_neg (by simp [verifySignature]; decide)]
  rfl

/-- C8 amended: issuance is never blocked by a sanctions match — for
every outcome of the issuance-time (yente) screening it succeeds and
sets `sanctionsStatus = "matched"` exactly when that screening reports a
top match with score at or above the threshold (and `"clear"` otherwise,
including on API error or no match); a later deposit whose certificate
passes the subject, certifier, expiry and revocation checks is rejected
as sanctioned exactly when the deposit-time re-screening against the
mock list matches the certificate's official name — the deposit handler
never reads `sanctionsStatus` — so a name on the mock list is rejected
even when unexpired and unrevoked, while a certificate marked
`"matched"` for a name the mock list does not match is not rejected. -/
theorem c8_sanctions_issuance_vs_deposit (serverIdentityKey authIdentityKey : String)
    (auth : KycAuthorizationMessage) (signature : String) (nowSec : Int)
    (yente : YenteOutcome) (serialNumber : String) (anchorOutpoint : Option String)
    (nowMs : Int) (store : List KycRecord)
    (hver : auth.verifier = serverIdentityKey)
    (hsub : auth.subject = authIdentityKey)
    (hts : |nowSec - auth.timestamp| ≤ 5 * 60)
    (hsig : 10 ≤ signature.length) :
    (trustflowVerify serverIdentityKey authIdentityKey (some auth) signature nowSec
        yente serialNumber anchorOutpoint nowMs store).1
      = .success
          { createKycCertificate auth.subject serverIdentityKey auth.officialName
              (if (checkSanctionsYente yente).1 then "matched" else "clear")
              serialNumber nowMs with revocationOutpoint := anchorOutpoint }
          (checkSanctionsYente yente).1
    ∧ ((createKycCertificate auth.subject serverIdentityKey auth.officialName
          (if (checkSanctionsYente yente).1 then "matched" else "clear")
          serialNumber nowMs).fields.sanctionsStatus = "matched"
        ↔ (checkSanctionsYente yente).1 = true)
    ∧ (∀ top : YenteTopMatch,
        (checkSanctionsYente (.results (some top))).1 = true
          ↔ MATCH_SCORE_THRESHOLD ≤ top.score)
    ∧ (checkSanctionsYente .apiError).1 = false
    ∧ (checkSanctionsYente (.results none)).1 = false
    ∧ (∀ (now : Int) (revLookup : String → Bool) (c : KycCertificate),
        c.subject = authIdentityKey → c.certifier = serverIdentityKey →
        isCertificateExpired now c = false →
        (c.revocationOutpoint.map revLookup).getD false = false →
        certCheck serverIdentityKey authIdentityKey now revLookup (some c)
          = if (checkSanctionsMock c.fields.officialName).1
            then some .sanctioned else none) := by
  have hne : signature ≠ "" := by
    intro he
    subst he
    exact absurd hsig (by decide)
  have hv : verifySignature auth.subject (authMessageText auth) signature = true :=
    (verifySignature_eq _ _ _).mpr hsig
  refine ⟨?_, ?_, ?_, rfl, rfl, ?_⟩
  · simp only [trustflowVerify]
    rw [if_neg hne,
      if_neg (by simp [hver] : ¬ (auth.verifier != serverIdentityKey) = true),
      if_neg (by simp [hsub] : ¬ (auth.subject != authIdentityKey) = true),
      if_neg (not_lt.mpr hts),
      if_neg (by simp [hv] : ¬ (!verifySignature auth.subject (authMessageText auth) signature) = true)]
  · cases hb : (checkSanctionsYente yente).1 with
    | true => simp [createKycCertificate, hb]
    | false =>
      simp only [createKycCertificate, hb, if_false]
      constructor
      · intro hcl; exact absurd hcl (by decide)
      · intro hcl; cases hcl
  · intro top
    cases hle : decide (MATCH_SCORE_THRESHOLD ≤ top.score) with
    | true =>
      have := of_decide_eq_true hle
      simp [checkSanctionsYente, this]
    | false =>
      have := of_decide_eq_false hle
      simp [checkSanctionsYente, this]
  · intro now revLookup c h1 h2 h3 h4
    have hm : (match c.revocationOutpoint with
        | some outpoint => revLookup outpoint
        | none => false) = false := by
      cases hro : c.revocationOutpoint with
      | none => rfl
      | some op => simpa [hro] using h4
    by_cases h5 : (checkSanctionsMock c.fields.officialName).1 = true
    · simp [certCheck, h1, h2, h3, hm, h5]
    · simp [certCheck, h1, h2, h3, hm, h5]

/-- The authorization used by the C8 witness: a name on the mock list. -/
def c8wAuth : KycAuthorizationMessage :=
  { subject := "A"
    verifier := "S"
    verifierName := "BSV Swift Exchange"
    officialName := "sanctioned person"
    timestamp := 0 }

/-- The issuance-time top match used by the C8 witness. -/
def c8wTop : YenteTopMatch := { caption := "Sanctioned Person", score := 8 / 10 }

/-- C8 witness: the amended claim at a concrete sanctioned name and a
concrete issuance-time screening outcome. -/
theorem c8_sanctions_issuance_vs_deposit_witness :
    (c8wAuth.verifier = "S"
      ∧ c8wAuth.subject = "A"
      ∧ |(0 : Int) - c8wAuth.timestamp| ≤ 5 * 60
      ∧ 10 ≤ ("validsignature" : String).length)
    ∧ ((trustflowVerify "S" "A" (some c8wAuth) "validsignature" 0
          (.results (some c8wTop)) "serial-2" none 0 []).1
        = .success
            { createKycCertificate c8wAuth.subject "S" c8wAuth.officialName
                (if (checkSanctionsYente (.results (some c8wTop))).1
                  then "matched" else "clear")
                "serial-2" 0 with revocationOutpoint := none }
            (checkSanctionsYente (.results (some c8wTop))).1
      ∧ ((createKycCertificate c8wAuth.subject "S" c8wAuth.officialName
            (if (checkSanctionsYente (.results (some c8wTop))).1
              then "matched" else "clear")
            "serial-2" 0).fields.sanctionsStatus = "matched"
          ↔ (checkSanctionsYente (.results (some c8wTop))).1 = true)
      ∧ (∀ top : YenteTopMatch,
          (checkSanctionsYente (.results (some top))).1 = true
            ↔ MATCH_SCORE_THRESHOLD ≤ top.score)
      ∧ (checkSanctionsYente .apiError).1 = false
      ∧ (checkSanctionsYente (.results none)).1 = false
      ∧ (∀ (now : Int) (revLookup : String → Bool) (c : KycCertificate),
          c.subject = "A" → c.certifier = "S" →
          isCertificateExpired now c = false →
          (c.revocationOutpoint.map revLookup).getD false = false →
          certCheck "S" "A" now revLookup (some c)
            = if (checkSanctionsMock c.fields.officialName).1
              then some .sanctioned else none)) :=
  ⟨⟨rfl, rfl, by decide, by decide⟩,
   c8_sanctions_issuance_vs_deposit "S" "A" c8wAuth "validsignature" 0
     (.results (some c8wTop)) "serial-2" none 0 [] rfl rfl (by decide) (by decide)⟩

end ExchangeServer
